import Mathlib

/-!
Shallow embedding of the srcful telegram gateway-monitor bot
(src/main.py and src/models.py): timestamp parsing, threshold-based
status evaluation, the SQLite-backed subscription/state store, and the
reconciliation polling loop of GatewayMonitor.start_polling.

Modelling conventions.
Instants are integer microseconds since the Unix epoch; Python aware
datetimes in UTC compare and subtract exactly like these integers, and
the ISO strings stored in the database are represented by the instants
they encode (isoformat is injective and order-preserving for aware UTC
datetimes).  Fractional-second arithmetic is modelled exactly over the
integers.  Raw reading timestamps are either numbers (epoch
milliseconds; the source's int/float case is modelled with integers) or
strings.  Python truthiness tests on raw values (if ts: / if sn: / if
chat_id:) are modelled explicitly: a number is truthy iff nonzero, a
string iff nonempty.  SQLite tables are association lists keyed by
their primary keys; logging, telegram transport and JSON serialisation
of the status-factors column are elided (the column's content is kept
as a structured value).
-/

/-- Raw timestamp value as delivered by the GraphQL data source:
either epoch milliseconds or an ISO-like string. -/
inductive TsRaw where
  | num (ms : Int)
  | str (s : String)

/-- Python truthiness of a raw timestamp (the source's `if ts:`). -/
def tsTruthy : TsRaw → Bool
  | TsRaw.num n => n != 0
  | TsRaw.str s => s.data != []

/-- Numeric value of a list of decimal digit characters. -/
def digitsVal (l : List Char) : Nat :=
  l.foldl (fun n c => n * 10 + (c.toNat - 48)) 0

/-- Gregorian leap-year test, as in Python's calendar arithmetic. -/
def isLeap (y : Int) : Bool :=
  y % 4 = 0 && (y % 100 != 0 || y % 400 = 0)

/-- Number of days in a month (month 1..12). -/
def daysInMonth (y m : Int) : Int :=
  if m = 2 then (if isLeap y then 29 else 28)
  else if m = 4 || m = 6 || m = 9 || m = 11 then 30
  else 31

/-- Days from 1970-01-01 to the civil date y-m-d (proleptic Gregorian),
the standard days-from-civil algorithm used by datetime arithmetic. -/
def daysFromCivil (y m d : Int) : Int :=
  let y' := if m ≤ 2 then y - 1 else y
  let era := (if 0 ≤ y' then y' else y' - 399) / 400
  let yoe := y' - era * 400
  let mp := (m + 9) % 12
  let doy := (153 * mp + 2) / 5 + d - 1
  let doe := yoe * 365 + yoe / 4 - yoe / 100 + doy
  era * 146097 + doe - 719468

/-- Microseconds since the epoch of the UTC civil time
y-m-d hh:mi:ss plus `frac` microseconds. -/
def mkInstant (y m d hh mi ss : Int) (frac : Int) : Int :=
  (daysFromCivil y m d * 86400 + hh * 3600 + mi * 60 + ss) * 1000000 + frac

/-- Split a character list into its leading run of decimal digits and
the rest. -/
def takeDigits (l : List Char) : List Char × List Char :=
  (l.takeWhile Char.isDigit, l.dropWhile Char.isDigit)

/-- Read a 1-or-2-digit field (the behaviour of Python strptime's
%m/%d/%H/%M/%S directives on a maximal digit run). -/
def field12 (l : List Char) : Option (Int × List Char) :=
  let p := takeDigits l
  if p.1.length = 0 || 2 < p.1.length then none
  else some ((digitsVal p.1 : Int), p.2)

/-- Consume one expected literal character. -/
def expect (c : Char) : List Char → Option (List Char)
  | [] => none
  | x :: t => if x = c then some t else none

/-- Model of datetime.strptime with format %Y-%m-%dT%H:%M:%S
(with a trailing .%f of 1..6 digits when `withFrac` is true),
including the datetime constructor's range validation
(year 1..9999, second 0..59); failure is `none`. -/
def strptimeCore (l : List Char) (withFrac : Bool) : Option Int :=
  let yp := takeDigits l
  if yp.1.length ≠ 4 then none else
  (expect '-' yp.2).bind fun r2 =>
  (field12 r2).bind fun mr =>
  (expect '-' mr.2).bind fun r4 =>
  (field12 r4).bind fun dr =>
  (expect 'T' dr.2).bind fun r6 =>
  (field12 r6).bind fun hr =>
  (expect ':' hr.2).bind fun r8 =>
  (field12 r8).bind fun mir =>
  (expect ':' mir.2).bind fun r10 =>
  (field12 r10).bind fun sr =>
  let y : Int := (digitsVal yp.1 : Int)
  if y < 1 || mr.1 < 1 || 12 < mr.1 || dr.1 < 1 || daysInMonth y mr.1 < dr.1
      || 23 < hr.1 || 59 < mir.1 || 59 < sr.1 then none
  else if withFrac then
    (expect '.' sr.2).bind fun r12 =>
    let fp := takeDigits r12
    if fp.1.length = 0 || 6 < fp.1.length || fp.2 ≠ [] then none
    else some (mkInstant y mr.1 dr.1 hr.1 mir.1 sr.1
                 ((digitsVal fp.1 : Int) * 10 ^ (6 - fp.1.length)))
  else
    if sr.2 = [] then some (mkInstant y mr.1 dr.1 hr.1 mir.1 sr.1 0)
    else none

/-- ljust of ms_part[:6] to exactly six digits with trailing zeros
(call sites pass a list of length at most 6). -/
def padTo6 (l : List Char) : List Char :=
  l ++ List.replicate (6 - l.length) '0'

/-- Rebuild a string containing exactly one dot as
dt_part + "." + ms_part[:6].ljust(6, "0")  (main.py lines 346-351). -/
def rebuildFrac (l : List Char) : List Char :=
  let dtPart := l.takeWhile (fun c => c != '.')
  let msPart := (l.dropWhile (fun c => c != '.')).tail
  dtPart ++ '.' :: padTo6 (msPart.take 6)

/-- The textual branch of GatewayMonitor.parse_timestamp after the Z
handling: two or more dots make `ts.split(".")` unpack raise (caught by
the enclosing try, yielding None); with one dot the fraction is
normalised to six digits; then strptime with fractional seconds is
tried and on ValueError retried without them, any remaining exception
again yielding None. -/
def parseTextCore (l : List Char) : Option Int :=
  if 2 ≤ l.count '.' then none
  else
    let ts := if l.count '.' = 1 then rebuildFrac l else l
    match strptimeCore ts true with
    | some v => some v
    | none => strptimeCore ts false

/-- The source's `ts.replace("Z", "")`: every occurrence of Z removed. -/
def removeAllZ (l : List Char) : List Char :=
  l.filter (fun c => c != 'Z')

/-- GatewayMonitor.parse_timestamp (main.py lines 336-365): a numeric
raw value is epoch milliseconds (datetime.fromtimestamp(ts/1000, utc)),
a textual one goes through Z removal and the fraction pipeline; any
parsing exception yields None. -/
def parse_timestamp : TsRaw → Option Int
  | TsRaw.num ms => some (ms * 1000)
  | TsRaw.str s => parseTextCore (removeAllZ s.data)

/-- Strip one trailing Z if present (the spec's words "strip a trailing
UTC marker"). -/
def removeTrailingZ (l : List Char) : List Char :=
  match l.getLast? with
  | some c => if c = 'Z' then l.dropLast else l
  | none => l

/-- Spec-side normalizer, following the specification's words for
timestamp normalization: numeric input is epoch milliseconds; textual
input has a trailing Z stripped (only a trailing one), the fractional
part normalised to six digits, and is then parsed, retrying without
fractional seconds; failures are unparseable.  Kept separate from
`parse_timestamp` so the two can be compared. -/
def normalize_spec : TsRaw → Option Int
  | TsRaw.num ms => some (ms * 1000)
  | TsRaw.str s => parseTextCore (removeTrailingZ s.data)

/-- Association-list lookup keyed the way a Python dict or an SQLite
primary-key SELECT is: first (unique) matching key wins. -/
def assocLookup {κ β : Type} [DecidableEq κ] : List (κ × β) → κ → Option β
  | [], _ => none
  | (k, v) :: t, key => if k = key then some v else assocLookup t key

/-- Insert-or-replace on an association list (dict assignment /
INSERT OR REPLACE on a primary-key table): an existing entry is
replaced in place, a new one appended. -/
def assocUpsert {κ β : Type} [DecidableEq κ] : List (κ × β) → κ → β → List (κ × β)
  | [], key, v => [(key, v)]
  | (k, w) :: t, key, v =>
      if k = key then (key, v) :: t else (k, w) :: assocUpsert t key v

/-- A DER (device) of a gateway as returned by the gateway query; the
fields the monitor reads.  Metadata (make, nominalPower, dataPoints) is
not consulted by the reconciliation loop and is elided. -/
structure Der where
  sn : Option String
  name : Option String
  type : Option String

/-- Gateway payload of the gateway query.  `ders` is an Option so that
a payload lacking the key (the `'ders' not in gateway_data` guard and
the `.get('ders', [])` default) is representable. -/
structure GatewayData where
  name : String
  id : String
  ders : Option (List Der)

/-- Latest reading of one DER as returned by the DER-data query. -/
structure Reading where
  ts : Option TsRaw
  power : Option Int

/-- One entry of the status_factors mapping built by the polling loop
(device serial to power/timestamp/name/type at last evaluation); the
timestamp is the parsed instant or none exactly as the source stores
`ts_dt.isoformat() if ts_dt else None`. -/
structure Factor where
  power : Option Int
  timestamp : Option Int
  name : Option String
  type : Option String

/-- The raw timestamp of a device's reading, after the source's guards
`if sn and sn in der_latest_data:` and `if ts:` (truthiness included). -/
def readingRawTs (derData : List (String × Reading)) (der : Der) : Option TsRaw :=
  match der.sn with
  | none => none
  | some sn =>
    if sn = "" then none
    else
      match assocLookup derData sn with
      | none => none
      | some r =>
        match r.ts with
        | none => none
        | some raw => if tsTruthy raw then some raw else none

/-- The source's running-maximum update
`if ts_dt and (not latest_ts or ts_dt > latest_ts): latest_ts = ts_dt`. -/
def updateLatest (latest : Option Int) (tsdt : Option Int) : Option Int :=
  match tsdt with
  | none => latest
  | some t =>
    match latest with
    | none => some t
    | some l => if l < t then some t else some l

/-- One iteration of the scan of check_gateway_status: apply the
reading guards, parse, and keep the running maximum. -/
def checkScanStep (derData : List (String × Reading)) (latest : Option Int)
    (der : Der) : Option Int :=
  match readingRawTs derData der with
  | none => latest
  | some raw => updateLatest latest (parse_timestamp raw)

/-- The scan of check_gateway_status (main.py lines 379-387): most
recent parseable instant across all DERs with a reading. -/
def latestValidTs (ders : List Der) (derData : List (String × Reading)) : Option Int :=
  ders.foldl (checkScanStep derData) none

/-- Core of GatewayMonitor.check_gateway_status (main.py lines 367-394)
after the threshold has been resolved: offline when the ders key is
missing or no DER yields a parseable timestamp, otherwise online iff
`(now - latest_ts).total_seconds() <= threshold_minutes * 60`
(all in microseconds; `now` is read once per evaluation and passed in). -/
def check_gateway_status_core (gd : GatewayData) (derData : List (String × Reading))
    (thresholdMinutes : Int) (now : Int) : Bool :=
  match gd.ders with
  | none => false
  | some ders =>
    match latestValidTs ders derData with
    | none => false
    | some latest => decide (now - latest ≤ thresholdMinutes * 60 * 1000000)

/-- SQLite row of gateway_status (models.py schema lines 23-32). -/
structure GatewayRecord where
  name : String
  is_online : Bool
  last_seen : Int
  status_factors : List (String × Factor)
  last_updated : Int

/-- SQLite row of subscriptions, primary key (chat_id, gateway_id). -/
structure Subscription where
  chat_id : Int
  gateway_id : String
  created_at : Int

/-- SQLite row of user_settings minus the chat_id key; last_version_seen
is unused by the monitor and elided. -/
structure UserSettings where
  threshold_minutes : Int
  created_at : Int
  updated_at : Int

/-- The bot's SQLite database (models.Database). -/
structure Db where
  gateway_status : List (String × GatewayRecord)
  subscriptions : List Subscription
  user_settings : List (Int × UserSettings)

/-- Database.get_gateway_subscribers (models.py lines 103-112). -/
def Db.get_gateway_subscribers (db : Db) (gatewayId : String) : List Int :=
  (db.subscriptions.filter (fun s => s.gateway_id == gatewayId)).map (fun s => s.chat_id)

/-- Database.add_subscription (models.py lines 361-381): plain INSERT;
the primary key (chat_id, gateway_id) makes a duplicate raise
IntegrityError, returned as False. -/
def Db.add_subscription (db : Db) (chatId : Int) (gatewayId : String) (now : Int) :
    Bool × Db :=
  if db.subscriptions.any (fun s => s.chat_id == chatId && s.gateway_id == gatewayId)
  then (false, db)
  else (true, { db with subscriptions :=
                  (db.subscriptions ++ [⟨chatId, gatewayId, now⟩]) })

/-- Keep the first occurrence of each element, given the elements seen
so far (helper of distinctList). -/
def distinctAux (seen : List String) : List String → List String
  | [] => []
  | x :: t =>
      if seen.contains x then distinctAux seen t
      else x :: distinctAux (seen ++ [x]) t

/-- Keep the first occurrence of each element (SELECT DISTINCT). -/
def distinctList (l : List String) : List String :=
  distinctAux [] l

/-- Database.get_all_gateway_ids (models.py lines 290-298): the
distinct gateway ids appearing in subscriptions. -/
def Db.get_all_gateway_ids (db : Db) : List String :=
  distinctList (db.subscriptions.map (fun s => s.gateway_id))

/-- Database.update_gateway_status (models.py lines 237-249, the later
definition, which shadows the earlier one of the same name):
INSERT OR REPLACE of the full row, with both last_seen and
last_updated set to the single timestamp argument. -/
def Db.update_gateway_status (db : Db) (gatewayId : String) (name : String)
    (isOnline : Bool) (timestamp : Int) (statusFactors : List (String × Factor)) : Db :=
  { db with gateway_status :=
      (assocUpsert db.gateway_status gatewayId
        ⟨name, isOnline, timestamp, statusFactors, timestamp⟩) }

/-- SELECT of a gateway_status row by primary key. -/
def Db.lookup_gateway (db : Db) (gatewayId : String) : Option GatewayRecord :=
  assocLookup db.gateway_status gatewayId

/-- Database.get_user_threshold (models.py lines 441-451): stored value
or the default of 5 minutes. -/
def Db.get_user_threshold (db : Db) (chatId : Int) : Int :=
  match assocLookup db.user_settings chatId with
  | some u => u.threshold_minutes
  | none => 5

/-- Upsert of a user_settings row: ON CONFLICT(chat_id) DO UPDATE sets
threshold_minutes and updated_at, keeping created_at. -/
def settingsUpsert : List (Int × UserSettings) → Int → Int → Int → List (Int × UserSettings)
  | [], chatId, minutes, now => [(chatId, ⟨minutes, now, now⟩)]
  | (c, u) :: t, chatId, minutes, now =>
      if c = chatId then (chatId, ⟨minutes, u.created_at, now⟩) :: t
      else (c, u) :: settingsUpsert t chatId minutes now

/-- Database.set_user_threshold (models.py lines 453-470); returns True
except on a database exception, which the model does not produce. -/
def Db.set_user_threshold (db : Db) (chatId : Int) (minutes : Int) (now : Int) :
    Bool × Db :=
  (true, { db with user_settings := settingsUpsert db.user_settings chatId minutes now })

/-- GatewayMonitor.check_gateway_status including threshold resolution:
`threshold_minutes = self.db.get_user_threshold(chat_id) if chat_id else 5`
(chat_id None or 0 is falsy and yields the default of 5). -/
def check_gateway_status (db : Db) (gd : GatewayData) (derData : List (String × Reading))
    (chatId : Option Int) (now : Int) : Bool :=
  let threshold : Int :=
    match chatId with
    | some c => if c ≠ 0 then db.get_user_threshold c else 5
    | none => 5
  check_gateway_status_core gd derData threshold now

/-- Replies of the /threshold command handler. -/
inductive ThresholdReply where
  | currentIs (minutes : Int)
  | tooLow
  | tooHigh
  | updated (minutes : Int)
  | updateFailed

/-- GatewayMonitor.threshold_command (main.py lines 890-936) for a
numeric argument (or none): values below 1 or above 60 are rejected
with an error reply before anything is stored; in-range values are
stored via set_user_threshold. -/
def threshold_command (db : Db) (chatId : Int) (arg : Option Int) (now : Int) :
    ThresholdReply × Db :=
  match arg with
  | none => (ThresholdReply.currentIs (db.get_user_threshold chatId), db)
  | some minutes =>
    if minutes < 1 then (ThresholdReply.tooLow, db)
    else if 60 < minutes then (ThresholdReply.tooHigh, db)
    else
      let r := db.set_user_threshold chatId minutes now
      if r.1 then (ThresholdReply.updated minutes, r.2)
      else (ThresholdReply.updateFailed, r.2)

/-- One notification handed to the telegram transport: the rendered
status message of format_status_message is determined by the gateway
payload and verdict, so it is represented by recipient, gateway and
verdict. -/
structure Notification where
  chat_id : Int
  gateway_id : String
  online : Bool
deriving DecidableEq

/-- The scan of start_polling (main.py lines 114-133): most recent
parseable instant plus the status_factors entry written for every DER
whose reading has a truthy raw timestamp (whether or not it parses). -/
def scanStatus (ders : List Der) (derData : List (String × Reading)) :
    Option Int × List (String × Factor) :=
  ders.foldl
    (fun acc der =>
      match der.sn with
      | none => acc
      | some sn =>
        if sn = "" then acc
        else
          match assocLookup derData sn with
          | none => acc
          | some r =>
            match r.ts with
            | none => acc
            | some raw =>
              if tsTruthy raw then
                let tsdt := parse_timestamp raw
                (updateLatest acc.1 tsdt,
                 assocUpsert acc.2 sn ⟨r.power, tsdt, der.name, der.type⟩)
              else acc)
    (none, [])

/-- Transient per-process state of the polling loop: the database, the
last_status dict mapping gateway id to (is_online, latest_ts), and the
initial_poll flag (main.py lines 96-97). -/
structure LoopState where
  db : Db
  last_status : List (String × (Bool × Int))
  initial_poll : Bool

/-- `last_known is None or last_known[0] != is_online` (main.py 142-145). -/
def statusChanged (lastKnown : Option (Bool × Int)) (isOnline : Bool) : Bool :=
  match lastKnown with
  | none => true
  | some p => p.1 != isOnline

/-- `not initial_poll and (not is_online or last_known is not None)`
(main.py lines 155-158). -/
def shouldNotifyFlag (initialPoll isOnline : Bool) (lastKnown : Option (Bool × Int)) : Bool :=
  !initialPoll && (!isOnline || lastKnown.isSome)

/-- The body of the per-gateway iteration of GatewayMonitor.start_polling
(main.py lines 104-186).  `fetch` stands for fetch_gateway_status: none
models an error, timeout or empty result (the `if not result: continue`
path).  The bot handle is assumed present (start_polling runs after
setup assigns it).  Returns the new state and the notifications sent. -/
def processGateway (fetch : String → Option (GatewayData × List (String × Reading)))
    (now : Int) (st : LoopState) (gatewayId : String) :
    LoopState × List Notification :=
  match fetch gatewayId with
  | none => (st, [])
  | some (gd, derData) =>
    let isOnline := check_gateway_status st.db gd derData none now
    let scan := scanStatus (gd.ders.getD []) derData
    let latestTs := scan.1.getD now
    let lastKnown := assocLookup st.last_status gatewayId
    let changed := statusChanged lastKnown isOnline
    let step :=
      if changed then
        let ls := assocUpsert st.last_status gatewayId (isOnline, latestTs)
        let subscribers := st.db.get_gateway_subscribers gatewayId
        (ls,
         if shouldNotifyFlag st.initial_poll isOnline lastKnown && !subscribers.isEmpty
         then subscribers.map
                (fun c => { chat_id := c, gateway_id := gatewayId, online := isOnline })
         else [])
      else (st.last_status, ([] : List Notification))
    let db' := st.db.update_gateway_status gatewayId gd.name isOnline latestTs scan.2
    ({ db := db', last_status := step.1, initial_poll := st.initial_poll }, step.2)

/-- Sequential iteration over the gateways of one cycle, accumulating
notifications; a per-gateway failure leaves the rest of the cycle
untouched. -/
def processGateways (fetch : String → Option (GatewayData × List (String × Reading)))
    (now : Int) : LoopState × List Notification → List String → LoopState × List Notification
  | acc, [] => acc
  | acc, gatewayId :: rest =>
      let r := processGateway fetch now acc.1 gatewayId
      processGateways fetch now (r.1, acc.2 ++ r.2) rest

/-- One full cycle of GatewayMonitor.start_polling: every subscribed
gateway is processed in order, then the initial_poll flag is cleared
(main.py lines 100-191). -/
def pollCycle (fetch : String → Option (GatewayData × List (String × Reading)))
    (now : Int) (st : LoopState) : LoopState × List Notification :=
  let r := processGateways fetch now (st, []) st.db.get_all_gateway_ids
  ({ r.1 with initial_poll := false }, r.2)

/-- Spec-side list of valid instants of a device list: the parsed
timestamps of the readings the scan considers. -/
def validInstants (ders : List Der) (derData : List (String × Reading)) : List Int :=
  ders.filterMap (fun der => (readingRawTs derData der).bind parse_timestamp)

/-- One maximum-accumulation step over parsed instants; equal to
`updateLatest acc (some t)`. -/
def maxStep (acc : Option Int) (t : Int) : Option Int :=
  match acc with
  | none => some t
  | some l => if l < t then some t else some l

/-- Concrete demonstration device used by concrete evaluations. -/
def demoDer : Der := { sn := some "a", name := none, type := none }

/-- Concrete gateway payload with one device. -/
def demoGateway : GatewayData := { name := "G", id := "g", ders := some [demoDer] }

/-- Concrete gateway payload with an empty device list. -/
def demoGatewayEmpty : GatewayData := { name := "G", id := "g", ders := some [] }

/-- Concrete database holding one subscription (chat 1, gateway g). -/
def demoDb : Db :=
  { gateway_status := [],
    subscriptions := [{ chat_id := 1, gateway_id := "g", created_at := 0 }],
    user_settings := [] }

/-- Empty database. -/
def demoDbEmpty : Db :=
  { gateway_status := [], subscriptions := [], user_settings := [] }

/-- Loop state over demoDb with a chosen flag and last-status cache. -/
def demoState (initialPoll : Bool) (lastStatus : List (String × (Bool × Int))) : LoopState :=
  { db := demoDb, last_status := lastStatus, initial_poll := initialPoll }

/-- Fetch returning the empty-device gateway for every id. -/
def demoFetchEmpty : String → Option (GatewayData × List (String × Reading)) :=
  fun _ => some (demoGatewayEmpty, [])

/-- State after one polling cycle at t=100000000 where the device has
no reading: latest_ts falls back to the cycle's wall clock. -/
def c4AfterCycle1 : LoopState :=
  (pollCycle (fun _ => some (demoGateway, [])) 100000000 (demoState true [])).1

/-- State after a second polling cycle at t=200000000 where the device
reports the stale instant 50 ms after the epoch. -/
def c4AfterCycle2 : LoopState :=
  (pollCycle
    (fun _ => some (demoGateway, [("a", { ts := some (TsRaw.num 50), power := none })]))
    200000000 c4AfterCycle1).1

/-- Looking up the key just upserted yields the new value. -/
theorem assocLookup_upsert {κ β : Type} [DecidableEq κ] (l : List (κ × β)) (k : κ) (v : β) :
    assocLookup (assocUpsert l k v) k = some v := by
  induction l with
  | nil => simp [assocUpsert, assocLookup]
  | cons p t ih =>
    obtain ⟨k', w⟩ := p
    by_cases h : k' = k
    · simp [assocUpsert, assocLookup, h]
    · simp [assocUpsert, assocLookup, h, ih]

/-- With chat_id None the status check uses the default 5-minute
threshold. -/
theorem check_gateway_status_none (db : Db) (gd : GatewayData)
    (dd : List (String × Reading)) (now : Int) :
    check_gateway_status db gd dd none now = check_gateway_status_core gd dd 5 now := rfl

/-- After settingsUpsert the stored threshold for the chat is the new
value. -/
theorem settingsUpsert_threshold (l : List (Int × UserSettings)) (c m now : Int) :
    (assocLookup (settingsUpsert l c m now) c).map (fun u => u.threshold_minutes) = some m := by
  induction l with
  | nil => simp [settingsUpsert, assocLookup]
  | cons p t ih =>
    obtain ⟨c', u⟩ := p
    by_cases h : c' = c
    · simp [settingsUpsert, assocLookup, h]
    · simp [settingsUpsert, assocLookup, h, ih]

/-- C6: the set-threshold operation rejects every value outside the
closed interval [1, 60] (in particular 0 and 61) with a validation
reply, leaving the database unchanged (no clamping, no store), and
accepts every value inside the interval (in particular 1 and 60),
storing it as the subscriber's threshold. -/
theorem c6_threshold_bounds (db : Db) (chatId now minutes : Int) :
    ((minutes < 1 ∨ 60 < minutes) →
      (threshold_command db chatId (some minutes) now).2 = db ∧
      ((threshold_command db chatId (some minutes) now).1 = ThresholdReply.tooLow ∨
       (threshold_command db chatId (some minutes) now).1 = ThresholdReply.tooHigh)) ∧
    (1 ≤ minutes → minutes ≤ 60 →
      (threshold_command db chatId (some minutes) now).1 = ThresholdReply.updated minutes ∧
      ((threshold_command db chatId (some minutes) now).2).get_user_threshold chatId
        = minutes) := by
  constructor
  · rintro (h | h)
    · simp [threshold_command, h]
    · have h1 : ¬ minutes < 1 := by omega
      simp [threshold_command, h1, h]
  · intro h1 h2
    have hl : ¬ minutes < 1 := by omega
    have hh : ¬ 60 < minutes := by omega
    refine ⟨by simp [threshold_command, hl, hh, Db.set_user_threshold], ?_⟩
    have hmap := settingsUpsert_threshold db.user_settings chatId minutes now
    cases hx : assocLookup (settingsUpsert db.user_settings chatId minutes now) chatId with
    | none => rw [hx] at hmap; simp at hmap
    | some u =>
      rw [hx] at hmap
      have hu : u.threshold_minutes = minutes := by
        simpa using hmap
      simp [threshold_command, hl, hh, Db.set_user_threshold, Db.get_user_threshold,
        hx, hu]

/-- C6 witness: 0 is rejected without touching the database and 60 is
accepted and stored. -/
theorem c6_threshold_bounds_witness :
    (threshold_command demoDbEmpty 1 (some 0) 0).2 = demoDbEmpty ∧
    (threshold_command demoDbEmpty 1 (some 60) 0).1 = ThresholdReply.updated 60 ∧
    ((threshold_command demoDbEmpty 1 (some 60) 0).2).get_user_threshold 1 = 60 := by
  refine ⟨((c6_threshold_bounds demoDbEmpty 1 0 0).1 (Or.inl (by decide))).1, ?_, ?_⟩
  · exact ((c6_threshold_bounds demoDbEmpty 1 0 60).2 (by decide) (by decide)).1
  · exact ((c6_threshold_bounds demoDbEmpty 1 0 60).2 (by decide) (by decide)).2

/-- C8: adding a subscription is idempotent: from a state not holding
the pair, the first add returns the success result, a second identical
add returns the already-exists result, and afterwards the subscriber
list of the gateway contains the subscriber exactly once. -/
theorem c8_add_subscription_idempotent (db : Db) (c : Int) (g : String) (n1 n2 : Int)
    (hfree : ∀ s ∈ db.subscriptions, ¬(s.chat_id = c ∧ s.gateway_id = g)) :
    (db.add_subscription c g n1).1 = true ∧
    (((db.add_subscription c g n1).2).add_subscription c g n2).1 = false ∧
    ((((db.add_subscription c g n1).2).add_subscription c g n2).2.get_gateway_subscribers
        g).count c = 1 := by
  have hany : db.subscriptions.any
      (fun s => s.chat_id == c && s.gateway_id == g) = false := by
    cases hh : db.subscriptions.any (fun s => s.chat_id == c && s.gateway_id == g) with
    | false => rfl
    | true =>
      obtain ⟨s, hs, hp⟩ := List.any_eq_true.mp hh
      simp only [Bool.and_eq_true, beq_iff_eq] at hp
      exact absurd hp (hfree s hs)
  have h1 : db.add_subscription c g n1
      = (true, { db with subscriptions :=
                  (db.subscriptions ++ [⟨c, g, n1⟩]) }) := by
    simp [Db.add_subscription, hany]
  have hany2 : (db.subscriptions ++ [(⟨c, g, n1⟩ : Subscription)]).any
      (fun s => s.chat_id == c && s.gateway_id == g) = true := by
    rw [List.any_append]
    simp
  refine ⟨by rw [h1], by rw [h1]; simp [Db.add_subscription, hany2], ?_⟩
  rw [h1]
  simp only [Db.add_subscription, hany2, if_pos]
  simp only [Db.get_gateway_subscribers, List.filter_append, List.map_append,
    List.count_append]
  have hz : ((db.subscriptions.filter (fun s => s.gateway_id == g)).map
      (fun s => s.chat_id)).count c = 0 := by
    rw [List.count_eq_zero]
    intro hmem
    obtain ⟨s, hsf, hsc⟩ := List.mem_map.mp hmem
    obtain ⟨hsl, hsg⟩ := List.mem_filter.mp hsf
    exact hfree s hsl ⟨hsc, by simpa using hsg⟩
  rw [hz]
  simp

/-- C8 witness: concrete double add on the empty database. -/
theorem c8_add_subscription_idempotent_witness :
    (demoDbEmpty.add_subscription 1 "g" 0).1 = true ∧
    (((demoDbEmpty.add_subscription 1 "g" 0).2).add_subscription 1 "g" 7).1 = false ∧
    ((((demoDbEmpty.add_subscription 1 "g" 0).2).add_subscription 1 "g"
        7).2.get_gateway_subscribers "g").count 1 = 1 :=
  c8_add_subscription_idempotent demoDbEmpty 1 "g" 0 7 (by simp [demoDbEmpty])

/-- C10: every gateway_status row written by update_gateway_status has
last_updated equal to last_seen, both taken from the single timestamp
argument; the reconciliation loop supplies the most recent device
instant, falling back to the evaluation wall clock, and the persistence
operation reads no clock of its own. -/
theorem c10_last_seen_eq_last_updated :
    (∀ (db : Db) (gid nm : String) (online : Bool) (ts : Int)
        (f : List (String × Factor)),
      ((db.update_gateway_status gid nm online ts f).lookup_gateway gid).map
          (fun r => (r.last_seen, r.last_updated)) = some (ts, ts)) ∧
    (∀ (fetch : String → Option (GatewayData × List (String × Reading))) (now : Int)
        (st : LoopState) (gid : String) (gd : GatewayData)
        (dd : List (String × Reading)),
      fetch gid = some (gd, dd) →
      (((processGateway fetch now st gid).1).db.lookup_gateway gid).map
          (fun r => (r.last_seen, r.last_updated)) =
        some ((scanStatus (gd.ders.getD []) dd).1.getD now,
              (scanStatus (gd.ders.getD []) dd).1.getD now)) := by
  constructor
  · intro db gid nm online ts f
    simp [Db.update_gateway_status, Db.lookup_gateway, assocLookup_upsert]
  · intro fetch now st gid gd dd h
    simp only [processGateway, h]
    simp [Db.update_gateway_status, Db.lookup_gateway, assocLookup_upsert]

/-- C10 witness: a concrete successful fetch persists equal last_seen
and last_updated, here the wall-clock fallback 0. -/
theorem c10_last_seen_eq_last_updated_witness :
    (((processGateway demoFetchEmpty 0 (demoState true []) "g").1).db.lookup_gateway
        "g").map (fun r => (r.last_seen, r.last_updated)) = some (0, 0) := by
  have h := c10_last_seen_eq_last_updated.2 demoFetchEmpty 0 (demoState true []) "g"
    demoGatewayEmpty [] rfl
  simpa using h

/-- C4 counterexample: the polling loop's upserts do not keep
last_updated non-decreasing.  A first cycle whose device has no reading
persists the wall clock 100000000; a second cycle whose device reports
the stale instant 50000 persists that older instant. -/
theorem c4_last_updated_counterexample :
    (c4AfterCycle1.db.lookup_gateway "g").map (fun r => r.last_updated)
        = some 100000000 ∧
    (c4AfterCycle2.db.lookup_gateway "g").map (fun r => r.last_updated)
        = some 50000 ∧
    (50000 : Int) < 100000000 := by
  refine ⟨by decide, by decide, by decide⟩

/-- C4 amended: update_gateway_status stores the caller-supplied
timestamp as last_updated, so across successive upserts for a gateway
last_updated is non-decreasing exactly when the supplied timestamps are
non-decreasing (the loop can supply an older instant after a wall-clock
fallback, in which case it decreases). -/
theorem c4_last_updated_amended (db : Db) (gid nm1 nm2 : String) (o1 o2 : Bool)
    (ts1 ts2 : Int) (f1 f2 : List (String × Factor)) (h : ts1 ≤ ts2) :
    (((db.update_gateway_status gid nm1 o1 ts1 f1).lookup_gateway gid).map
        (fun r => r.last_updated) = some ts1) ∧
    ((((db.update_gateway_status gid nm1 o1 ts1 f1).update_gateway_status gid nm2 o2
        ts2 f2).lookup_gateway gid).map (fun r => r.last_updated) = some ts2) ∧
    (∀ a b : Int,
      (((db.update_gateway_status gid nm1 o1 ts1 f1).lookup_gateway gid).map
          (fun r => r.last_updated) = some a) →
      ((((db.update_gateway_status gid nm1 o1 ts1 f1).update_gateway_status gid nm2 o2
          ts2 f2).lookup_gateway gid).map (fun r => r.last_updated) = some b) →
      a ≤ b) := by
  have e1 : ((db.update_gateway_status gid nm1 o1 ts1 f1).lookup_gateway gid).map
      (fun r => r.last_updated) = some ts1 := by
    simp [Db.update_gateway_status, Db.lookup_gateway, assocLookup_upsert]
  have e2 : (((db.update_gateway_status gid nm1 o1 ts1 f1).update_gateway_status gid
      nm2 o2 ts2 f2).lookup_gateway gid).map (fun r => r.last_updated) = some ts2 := by
    simp [Db.update_gateway_status, Db.lookup_gateway, assocLookup_upsert]
  refine ⟨e1, e2, ?_⟩
  intro a b ha hb
  rw [e1] at ha
  rw [e2] at hb
  have hae : a = ts1 := by simpa using ha.symm
  have hbe : b = ts2 := by simpa using hb.symm
  omega

/-- C4 amended witness: two concrete upserts with non-decreasing
supplied timestamps store non-decreasing last_updated values. -/
theorem c4_last_updated_amended_witness :
    (((demoDbEmpty.update_gateway_status "g" "G" false 10 []).lookup_gateway "g").map
        (fun r => r.last_updated) = some 10) ∧
    ((((demoDbEmpty.update_gateway_status "g" "G" false 10
        []).update_gateway_status "g" "G" true 20 []).lookup_gateway "g").map
        (fun r => r.last_updated) = some 20) :=
  ⟨(c4_last_updated_amended demoDbEmpty "g" "G" "G" false true 10 20 [] []
      (by decide)).1,
   (c4_last_updated_amended demoDbEmpty "g" "G" "G" false true 10 20 [] []
      (by decide)).2.1⟩

/-- Removing all Z's from a Z-free list changes nothing. -/
theorem removeAllZ_no_z (l : List Char) (h : ¬ 'Z' ∈ l) : removeAllZ l = l := by
  induction l with
  | nil => rfl
  | cons x t ih =>
    simp only [List.mem_cons, not_or] at h
    have hx : ¬ x = 'Z' := fun he => h.1 he.symm
    simp only [removeAllZ, List.filter_cons] at ih ⊢
    simp [hx, ih h.2]

/-- Stripping a trailing Z from a Z-free list changes nothing. -/
theorem removeTrailingZ_no_z (l : List Char) (h : ¬ 'Z' ∈ l) : removeTrailingZ l = l := by
  unfold removeTrailingZ
  cases hg : l.getLast? with
  | none => rfl
  | some c =>
    have hc : c ∈ l := List.mem_of_mem_getLast? hg
    have hne : c ≠ 'Z' := fun he => h (he ▸ hc)
    simp [hne]

/-- Removing all Z's from a Z-free list followed by one trailing Z
keeps exactly the Z-free part. -/
theorem removeAllZ_concat_z (t : List Char) (h : ¬ 'Z' ∈ t) :
    removeAllZ (t ++ ['Z']) = t := by
  unfold removeAllZ
  rw [List.filter_append]
  have h1 : List.filter (fun c => c != 'Z') t = t := removeAllZ_no_z t h
  have h2 : List.filter (fun c => c != 'Z') ['Z'] = [] := rfl
  rw [h1, h2, List.append_nil]

/-- C9 counterexample: the claimed normalization strips only a trailing
UTC marker, so on the textual input with a leading Z it raises during
parsing and must yield the unparseable result; parse_timestamp instead
removes every occurrence of Z and parses the input successfully. -/
theorem c9_parse_timestamp_counterexample :
    parse_timestamp (TsRaw.str "Z2024-01-01T00:00:00")
      = some (mkInstant 2024 1 1 0 0 0 0) ∧
    normalize_spec (TsRaw.str "Z2024-01-01T00:00:00") = none := by
  exact ⟨by decide, by decide⟩

/-- C9 amended: timestamp normalization is total; a numeric input is
epoch milliseconds UTC (1700000000000 maps to 2023-11-14T22:13:20Z); a
textual input has every occurrence of Z removed — which agrees with
stripping one trailing Z whenever Z occurs at most once and only at the
end — and any fractional part truncated or zero-padded to six digits
before parsing, retrying without fractional seconds; any input that
raises during parsing yields the unparseable result. -/
theorem c9_parse_timestamp_amended :
    (∀ n : Int, parse_timestamp (TsRaw.num n) = some (n * 1000)) ∧
    (∀ s : String,
      (¬ 'Z' ∈ s.data ∨ ∃ t, ¬ 'Z' ∈ t ∧ s.data = t ++ ['Z']) →
      parse_timestamp (TsRaw.str s) = normalize_spec (TsRaw.str s)) ∧
    parse_timestamp (TsRaw.str "2024-01-01T00:00:00.123456789Z")
      = some (mkInstant 2024 1 1 0 0 0 123456) ∧
    parse_timestamp (TsRaw.num 1700000000000)
      = some (mkInstant 2023 11 14 22 13 20 0) ∧
    parse_timestamp (TsRaw.str "not-a-date") = none := by
  refine ⟨fun n => rfl, ?_, by decide, by decide, by decide⟩
  intro s hz
  have he : removeAllZ s.data = removeTrailingZ s.data := by
    rcases hz with h | ⟨t, ht, hts⟩
    · rw [removeAllZ_no_z _ h, removeTrailingZ_no_z _ h]
    · rw [hts, removeAllZ_concat_z t ht]
      unfold removeTrailingZ
      rw [List.getLast?_concat]
      simp [List.dropLast_concat]
  simp [parse_timestamp, normalize_spec, he]

/-- C9 amended witness: for an input whose only Z is trailing the two
normalizations agree. -/
theorem c9_parse_timestamp_amended_witness :
    parse_timestamp (TsRaw.str "2024-01-01T00:00:00Z")
      = normalize_spec (TsRaw.str "2024-01-01T00:00:00Z") :=
  c9_parse_timestamp_amended.2.1 "2024-01-01T00:00:00Z"
    (Or.inr ⟨"2024-01-01T00:00:00".data, by decide, by decide⟩)

/-- The running-maximum step on a present instant is maxStep. -/
theorem updateLatest_some (acc : Option Int) (t : Int) :
    updateLatest acc (some t) = maxStep acc t := rfl

/-- One scan step rephrased through the spec-side parsed reading. -/
theorem checkScanStep_eq (dd : List (String × Reading)) (acc : Option Int) (der : Der) :
    checkScanStep dd acc der =
      match (readingRawTs dd der).bind parse_timestamp with
      | none => acc
      | some v => maxStep acc v := by
  unfold checkScanStep
  cases hr : readingRawTs dd der with
  | none => rfl
  | some raw =>
    show updateLatest acc (parse_timestamp raw)
        = (match (some raw).bind parse_timestamp with
           | none => acc
           | some v => maxStep acc v)
    rw [Option.some_bind]
    cases parse_timestamp raw with
    | none => rfl
    | some v => rfl

/-- The scan of check_gateway_status computes the fold of maxStep over
the spec-side list of valid instants. -/
theorem latest_fold_eq (dd : List (String × Reading)) (ders : List Der) :
    ∀ acc : Option Int,
      ders.foldl (checkScanStep dd) acc = (validInstants ders dd).foldl maxStep acc := by
  induction ders with
  | nil => intro acc; rfl
  | cons der t ih =>
    intro acc
    rw [List.foldl_cons]
    unfold validInstants
    rw [List.filterMap_cons]
    rw [checkScanStep_eq]
    cases hb : (readingRawTs dd der).bind parse_timestamp with
    | none => exact ih acc
    | some v =>
      rw [List.foldl_cons]
      exact ih (maxStep acc v)

/-- Folding maxStep from a present accumulator is folding max. -/
theorem foldl_maxStep_some (l : List Int) :
    ∀ a : Int, l.foldl maxStep (some a) = some (l.foldl max a) := by
  induction l with
  | nil => intro a; rfl
  | cons x t ih =>
    intro a
    rw [List.foldl_cons, List.foldl_cons]
    have hs : maxStep (some a) x = some (max a x) := by
      unfold maxStep
      by_cases h : a < x
      · simp [h, max_eq_right h.le]
      · simp [h, max_eq_left (not_lt.mp h)]
    rw [hs, ih]

/-- Folding maxStep from none over a nonempty list yields the maximum
of head and tail. -/
theorem foldl_maxStep_none (l : List Int) (h : l ≠ []) :
    ∃ x t, l = x :: t ∧ l.foldl maxStep none = some (t.foldl max x) := by
  cases l with
  | nil => exact absurd rfl h
  | cons x t =>
    refine ⟨x, t, rfl, ?_⟩
    rw [List.foldl_cons]
    exact foldl_maxStep_some t x

/-- A fold of max lands in the seed-or-list. -/
theorem foldl_max_mem (t : List Int) : ∀ a : Int, t.foldl max a ∈ a :: t := by
  induction t with
  | nil => intro a; simp
  | cons x t ih =>
    intro a
    rw [List.foldl_cons]
    rcases List.mem_cons.mp (ih (max a x)) with he | ht
    · rcases max_choice a x with h | h
      · rw [he, h]; exact List.mem_cons_self _ _
      · rw [he, h]; exact List.mem_cons_of_mem _ (List.mem_cons_self _ _)
    · exact List.mem_cons_of_mem _ (List.mem_cons_of_mem _ ht)

/-- A fold of max bounds the seed and every element. -/
theorem foldl_max_le (t : List Int) :
    ∀ a : Int, a ≤ t.foldl max a ∧ ∀ x ∈ t, x ≤ t.foldl max a := by
  induction t with
  | nil => intro a; exact ⟨le_refl a, by simp⟩
  | cons y t ih =>
    intro a
    rw [List.foldl_cons]
    obtain ⟨h1, h2⟩ := ih (max a y)
    refine ⟨le_trans (le_max_left a y) h1, ?_⟩
    intro x hx
    rcases List.mem_cons.mp hx with he | ht
    · rw [he]
      exact le_trans (le_max_right a y) h1
    · exact h2 x ht

/-- C2 counterexample: the device's reading carries the raw numeric
timestamp 0, which parses to the epoch instant (the only, hence most
recent, parseable reading) and whose age at now = 60000000 is within
the 5-minute threshold, yet the evaluation returns offline: the
source's `if ts:` truthiness guard skips the falsy raw value 0 before
parsing. -/
theorem c2_evaluate_counterexample :
    parse_timestamp (TsRaw.num 0) = some 0 ∧
    ((60000000 : Int) - 0 ≤ 5 * 60 * 1000000) ∧
    check_gateway_status_core demoGateway
      [("a", { ts := some (TsRaw.num 0), power := none })] 5 60000000 = false := by
  exact ⟨by decide, by decide, by decide⟩

/-- C2 amended: for readings whose raw timestamp is truthy (nonzero if
numeric, nonempty if textual) and parses, the evaluation returns online
iff the age of the most recent such instant, measured against the
single evaluation instant `now`, is at most thresholdMinutes times 60
seconds, equality counting as online; if no device yields such an
instant (including zero devices), the evaluation returns offline. -/
theorem c2_evaluate_amended (gd : GatewayData) (dd : List (String × Reading))
    (T now : Int) (ders : List Der) (hd : gd.ders = some ders) :
    (validInstants ders dd = [] → check_gateway_status_core gd dd T now = false) ∧
    (∀ m : Int, m ∈ validInstants ders dd →
      (∀ x ∈ validInstants ders dd, x ≤ m) →
      (check_gateway_status_core gd dd T now = true ↔
        now - m ≤ T * 60 * 1000000)) := by
  have hch : check_gateway_status_core gd dd T now =
      match latestValidTs ders dd with
      | none => false
      | some latest => decide (now - latest ≤ T * 60 * 1000000) := by
    unfold check_gateway_status_core
    rw [hd]
  have hlv : latestValidTs ders dd = (validInstants ders dd).foldl maxStep none :=
    latest_fold_eq dd ders none
  constructor
  · intro he
    rw [hch, hlv, he]
    rfl
  · intro m hm hub
    have hne : validInstants ders dd ≠ [] := by
      intro h0
      rw [h0] at hm
      exact absurd hm (List.not_mem_nil m)
    obtain ⟨x, t, hxt, hfold⟩ := foldl_maxStep_none _ hne
    have hmemM : t.foldl max x ∈ validInstants ders dd := by
      rw [hxt]
      exact foldl_max_mem t x
    have hle1 : t.foldl max x ≤ m := hub _ hmemM
    have hle2 : m ≤ t.foldl max x := by
      rw [hxt] at hm
      rcases List.mem_cons.mp hm with he | ht
      · exact he ▸ (foldl_max_le t x).1
      · exact (foldl_max_le t x).2 m ht
    have hM : t.foldl max x = m := le_antisymm hle1 hle2
    rw [hch, hlv, hfold, hM]
    simp

/-- C2 amended witness: a truthy reading 50 ms after the epoch seen at
now = 60000000 microseconds is within the 5-minute threshold, so the
evaluation is online. -/
theorem c2_evaluate_amended_witness :
    check_gateway_status_core demoGateway
      [("a", { ts := some (TsRaw.num 50), power := none })] 5 60000000 = true := by
  have h := (c2_evaluate_amended demoGateway
    [("a", { ts := some (TsRaw.num 50), power := none })] 5 60000000 [demoDer]
    rfl).2 50000 (by decide) (by decide)
  exact h.mpr (by decide)

/-- C7: a failed fetch (error, timeout or empty result) makes the loop
skip the gateway for this cycle with no mutation of the database, the
persisted record or the last-verdict cache and no notification, and
processing continues with the remaining gateways of the same cycle. -/
theorem c7_fetch_failure_skips
    (fetch : String → Option (GatewayData × List (String × Reading)))
    (now : Int) (st : LoopState) (gid : String) (hfail : fetch gid = none) :
    processGateway fetch now st gid = (st, []) ∧
    (∀ (acc : LoopState × List Notification) (rest : List String),
      processGateways fetch now acc (gid :: rest) = processGateways fetch now acc rest) := by
  have hg : ∀ s : LoopState, processGateway fetch now s gid = (s, []) := by
    intro s
    unfold processGateway
    rw [hfail]
  refine ⟨hg st, ?_⟩
  intro acc rest
  simp only [processGateways, hg, List.append_nil]

/-- C7 witness: a concrete failing fetch leaves the concrete state
untouched and emits nothing. -/
theorem c7_fetch_failure_skips_witness :
    processGateway (fun _ => none) 0 (demoState true []) "g" = (demoState true [], []) :=
  (c7_fetch_failure_skips (fun _ => none) 0 (demoState true []) "g" rfl).1

/-- C5: when the computed verdict equals the verdict cached for the
gateway in the previous cycle, the loop sends zero notifications for it
in this cycle, yet the record is still upserted with that verdict and
its last_updated field is written with the supplied timestamp (the most
recent device instant or the wall-clock fallback). -/
theorem c5_unchanged_verdict
    (fetch : String → Option (GatewayData × List (String × Reading)))
    (now : Int) (st : LoopState) (gid : String) (gd : GatewayData)
    (dd : List (String × Reading)) (t : Int)
    (hfetch : fetch gid = some (gd, dd))
    (hcache : assocLookup st.last_status gid
      = some (check_gateway_status st.db gd dd none now, t)) :
    (processGateway fetch now st gid).2 = [] ∧
    ((processGateway fetch now st gid).1.db.lookup_gateway gid).map
        (fun r => (r.is_online, r.last_updated))
      = some (check_gateway_status st.db gd dd none now,
              (scanStatus (gd.ders.getD []) dd).1.getD now) := by
  unfold processGateway
  rw [hfetch]
  simp only [hcache, statusChanged, bne_self_eq_false, Bool.false_eq_true, if_false,
    Db.update_gateway_status, Db.lookup_gateway, assocLookup_upsert, Option.map_some]
  exact ⟨trivial, rfl⟩

/-- The source's `if ... and subscribers:` guard is invisible in the
dispatched list: mapping over an empty subscriber list is empty. -/
theorem ite_isEmpty_map (l : List Int) (f : Int → Notification) :
    (if !l.isEmpty then l.map f else []) = l.map f := by
  cases l with
  | nil => rfl
  | cons x t => rfl

/-- C1 counterexample: gateway g has never been observed in this
process (no entry in the last-verdict cache), the initial polling cycle
is already over, the computed verdict is offline, and the loop
dispatches a notification to subscriber 1 — contradicting "no
notification regardless of the computed verdict, also on later
cycles".  (The state is nonetheless persisted.) -/
theorem c1_first_observation_counterexample :
    assocLookup (demoState false []).last_status "g" = none ∧
    (processGateway demoFetchEmpty 0 (demoState false []) "g").2
      = [{ chat_id := 1, gateway_id := "g", online := false }] := by
  exact ⟨rfl, by decide⟩

/-- C1 amended: for a gateway observed for the first time in the
process's lifetime (no last-verdict cache entry), no notification is
dispatched during the initial polling cycle regardless of verdict; on
later cycles the first observation dispatches no notification when the
verdict is online but notifies every subscriber when it is offline; the
gateway's state is persisted with the computed verdict in all cases. -/
theorem c1_first_observation_amended
    (fetch : String → Option (GatewayData × List (String × Reading)))
    (now : Int) (st : LoopState) (gid : String) (gd : GatewayData)
    (dd : List (String × Reading))
    (hcache : assocLookup st.last_status gid = none)
    (hfetch : fetch gid = some (gd, dd)) :
    (st.initial_poll = true → (processGateway fetch now st gid).2 = []) ∧
    (check_gateway_status st.db gd dd none now = true →
      (processGateway fetch now st gid).2 = []) ∧
    (st.initial_poll = false → check_gateway_status st.db gd dd none now = false →
      (processGateway fetch now st gid).2
        = (st.db.get_gateway_subscribers gid).map
            (fun c => { chat_id := c, gateway_id := gid, online := false })) ∧
    ((processGateway fetch now st gid).1.db.lookup_gateway gid).map
        (fun r => r.is_online) = some (check_gateway_status st.db gd dd none now) := by
  have hkey : processGateway fetch now st gid =
      ({ db := st.db.update_gateway_status gid gd.name
              (check_gateway_status st.db gd dd none now)
              ((scanStatus (gd.ders.getD []) dd).1.getD now)
              (scanStatus (gd.ders.getD []) dd).2,
         last_status := assocUpsert st.last_status gid
              (check_gateway_status st.db gd dd none now,
               (scanStatus (gd.ders.getD []) dd).1.getD now),
         initial_poll := st.initial_poll },
       if (!st.initial_poll && !check_gateway_status st.db gd dd none now)
           && !(st.db.get_gateway_subscribers gid).isEmpty
       then (st.db.get_gateway_subscribers gid).map
              (fun c => { chat_id := c, gateway_id := gid,
                          online := check_gateway_status st.db gd dd none now })
       else []) := by
    unfold processGateway
    rw [hfetch]
    simp only [hcache, statusChanged, shouldNotifyFlag, Option.isSome_none,
      Bool.or_false, if_true]
  refine ⟨?_, ?_, ?_, ?_⟩
  · intro hinit
    rw [hkey]
    simp [hinit]
  · intro hon
    rw [hkey]
    simp [hon]
  · intro hinit hoff
    rw [hkey]
    simp only [hinit, hoff, Bool.not_false, Bool.and_self, Bool.true_and]
    rw [ite_isEmpty_map]
  · rw [hkey]
    simp only [Db.update_gateway_status, Db.lookup_gateway, assocLookup_upsert]
    rfl

/-- C1 amended witness: during the initial polling cycle the concrete
never-before-seen offline gateway produces no notification. -/
theorem c1_first_observation_amended_witness :
    (processGateway demoFetchEmpty 0 (demoState true []) "g").2 = [] :=
  (c1_first_observation_amended demoFetchEmpty 0 (demoState true []) "g"
    demoGatewayEmpty [] rfl rfl).1 rfl

/-- Counting a rendered notification in the fan-out list counts its
recipient. -/
theorem count_map_notification (l : List Int) (gid : String) (io : Bool) (c : Int) :
    ((l.map (fun ch => ({ chat_id := ch, gateway_id := gid, online := io }
        : Notification))).count
      ({ chat_id := c, gateway_id := gid, online := io } : Notification)) = l.count c := by
  induction l with
  | nil => rfl
  | cons x t ih =>
    by_cases hxc : x = c
    · simp [List.count_cons, hxc, ih]
    · simp [List.count_cons, Notification.mk.injEq, hxc, ih]

/-- The primary key of subscriptions makes the subscriber list of any
gateway duplicate-free. -/
theorem subscribers_nodup_of_pk (l : List Subscription) (gid : String)
    (h : (l.map (fun s => (s.chat_id, s.gateway_id))).Nodup) :
    ((l.filter (fun s => s.gateway_id == gid)).map (fun s => s.chat_id)).Nodup := by
  induction l with
  | nil => simp
  | cons s t ih =>
    simp only [List.map_cons, List.nodup_cons] at h
    obtain ⟨hnotin, hnd⟩ := h
    by_cases hg : s.gateway_id = gid
    · rw [List.filter_cons_of_pos (by simpa using hg), List.map_cons, List.nodup_cons]
      refine ⟨?_, ih hnd⟩
      intro hmem
      obtain ⟨s', hs'f, hs'c⟩ := List.mem_map.mp hmem
      obtain ⟨hs'l, hs'g⟩ := List.mem_filter.mp hs'f
      apply hnotin
      rw [List.mem_map]
      refine ⟨s', hs'l, ?_⟩
      have hg' : s'.gateway_id = gid := by simpa using hs'g
      simp [hs'c, hg', hg]
    · rw [List.filter_cons_of_neg (by simpa using hg)]
      exact ih hnd

/-- C3: after the first polling cycle, when the computed verdict
differs from the verdict cached in the previous cycle, the loop sends
exactly one notification to each subscriber of the gateway (the list is
resolved from the store at dispatch time), and the persisted record
afterwards carries the new verdict. -/
theorem c3_transition_notifies
    (fetch : String → Option (GatewayData × List (String × Reading)))
    (now : Int) (st : LoopState) (gid : String) (gd : GatewayData)
    (dd : List (String × Reading)) (b : Bool) (t : Int)
    (hinit : st.initial_poll = false)
    (hcache : assocLookup st.last_status gid = some (b, t))
    (hfetch : fetch gid = some (gd, dd))
    (hdiff : b ≠ check_gateway_status st.db gd dd none now)
    (hpk : (st.db.subscriptions.map (fun s => (s.chat_id, s.gateway_id))).Nodup) :
    (processGateway fetch now st gid).2
      = (st.db.get_gateway_subscribers gid).map
          (fun c => { chat_id := c, gateway_id := gid,
                      online := check_gateway_status st.db gd dd none now }) ∧
    (∀ c ∈ st.db.get_gateway_subscribers gid,
      ((processGateway fetch now st gid).2).count
          ({ chat_id := c, gateway_id := gid,
             online := check_gateway_status st.db gd dd none now } : Notification) = 1) ∧
    ((processGateway fetch now st gid).1.db.lookup_gateway gid).map
        (fun r => r.is_online) = some (check_gateway_status st.db gd dd none now) := by
  have hbne : (b != check_gateway_status st.db gd dd none now) = true :=
    bne_iff_ne.mpr hdiff
  have hkey : processGateway fetch now st gid =
      ({ db := st.db.update_gateway_status gid gd.name
              (check_gateway_status st.db gd dd none now)
              ((scanStatus (gd.ders.getD []) dd).1.getD now)
              (scanStatus (gd.ders.getD []) dd).2,
         last_status := assocUpsert st.last_status gid
              (check_gateway_status st.db gd dd none now,
               (scanStatus (gd.ders.getD []) dd).1.getD now),
         initial_poll := st.initial_poll },
       if !(st.db.get_gateway_subscribers gid).isEmpty
       then (st.db.get_gateway_subscribers gid).map
              (fun c => { chat_id := c, gateway_id := gid,
                          online := check_gateway_status st.db gd dd none now })
       else []) := by
    unfold processGateway
    rw [hfetch]
    simp only [hcache, statusChanged, shouldNotifyFlag, hbne, hinit,
      Option.isSome_some, Bool.or_true, Bool.not_false, Bool.and_true, Bool.true_and,
      if_true]
  have hmap : (processGateway fetch now st gid).2
      = (st.db.get_gateway_subscribers gid).map
          (fun c => { chat_id := c, gateway_id := gid,
                      online := check_gateway_status st.db gd dd none now }) := by
    rw [hkey]
    exact ite_isEmpty_map _ _
  refine ⟨hmap, ?_, ?_⟩
  · intro c hc
    rw [hmap, count_map_notification]
    exact List.count_eq_one_of_mem
      (subscribers_nodup_of_pk st.db.subscriptions gid hpk) hc
  · rw [hkey]
    simp only [Db.update_gateway_status, Db.lookup_gateway, assocLookup_upsert]
    rfl

/-- C3 witness: a concrete offline-to-online flip after the first cycle
notifies the single subscriber exactly once and persists the online
verdict. -/
theorem c3_transition_notifies_witness :
    (processGateway demoFetchEmpty 0 (demoState false [("g", (true, 0))]) "g").2
      = [{ chat_id := 1, gateway_id := "g", online := false }] ∧
    ((processGateway demoFetchEmpty 0
        (demoState false [("g", (true, 0))]) "g").2).count
      ({ chat_id := 1, gateway_id := "g", online := false } : Notification) = 1 := by
  have h := c3_transition_notifies demoFetchEmpty 0
    (demoState false [("g", (true, 0))]) "g" demoGatewayEmpty [] true 0
    rfl (by decide) rfl (by decide) (by decide)
  refine ⟨?_, ?_⟩
  · have h1 := h.1
    simpa using h1
  · have h2 := h.2.1 1 (by decide)
    simpa using h2

/-- C5 witness: a concrete cycle whose verdict matches the cached one
sends nothing yet upserts the record with the supplied timestamp. -/
theorem c5_unchanged_verdict_witness :
    (processGateway demoFetchEmpty 0 (demoState false [("g", (false, 0))]) "g").2 = [] ∧
    ((processGateway demoFetchEmpty 0
        (demoState false [("g", (false, 0))]) "g").1.db.lookup_gateway "g").map
      (fun r => (r.is_online, r.last_updated)) = some (false, 0) := by
  have h := c5_unchanged_verdict demoFetchEmpty 0
    (demoState false [("g", (false, 0))]) "g" demoGatewayEmpty [] 0 rfl (by decide)
  refine ⟨h.1, ?_⟩
  have h2 := h.2
  simpa using h2
